import Mathlib

/-!
Verification of the SafeNet SOHO security framework's tunnel lifecycle core
(`src/core/engine.py`): the WireGuard config renderer `generate_config_string`,
the lifecycle operations `start_safenet_tunnel` / `stop_safenet_tunnel`, and the
service-state query `get_tunnel_status`.

The Python code is embedded shallowly:

* `generate_config_string` is a pure function over strings and is translated
  directly, together with the log messages it emits (returned as an explicit
  list of strings, since one claim is about log contents).
* The stateful operations perform filesystem writes/deletes and spawn
  subprocesses.  Each is translated as a function of its inputs and of an
  explicit environment record describing what the outside world does
  (whether the config write raises, whether the file exists afterwards, how
  path resolution behaves, and the outcome of the subprocess call).  The
  function returns the Python result (`Except` models raise vs. return),
  the list of subprocess invocations it attempted (distinguishing argument
  vectors from shell command lines), the list of files it deleted, and its
  log messages.
* Python `str.strip`, `str.split("\n")`, `str.split(":", 1)`, `str.split()`
  and the `in` substring test are modelled character-listwise by `pyStrip`,
  `splitLinesChars`, `afterColonChars`, `firstTokenChars` and `containsSeq`.
  `"\n".join` is `pyJoin`.  Quote characters inside Python log-message
  literals are omitted (no claim depends on them).
-/

/-- Python `"sep".join(lines)`. -/
def pyJoin (sep : String) : List String → String
  | [] => ""
  | [s] => s
  | s :: rest => s ++ sep ++ pyJoin sep rest

/-- Python `s.strip()` on a character list: drop whitespace from both ends. -/
def stripChars (l : List Char) : List Char :=
  ((l.dropWhile Char.isWhitespace).reverse.dropWhile Char.isWhitespace).reverse

/-- Python `s.strip()`. -/
def pyStrip (s : String) : String := String.mk (stripChars s.data)

/-- Python `s.split("\n")` on a character list. -/
def splitLinesChars : List Char → List (List Char)
  | [] => [[]]
  | c :: cs =>
    match splitLinesChars cs with
    | [] => [[]]
    | l :: ls => if c = '\n' then [] :: l :: ls else (c :: l) :: ls

/-- Python `line.split(":", 1)`: `some rest` is the text after the first
colon (`parts[1]` when `len(parts) == 2`), `none` means no colon. -/
def afterColonChars : List Char → Option (List Char)
  | [] => none
  | c :: cs => if c = ':' then some cs else afterColonChars cs

/-- Python `s.split()[0]` for a stripped nonempty `s`: the leading run of
non-whitespace characters. -/
def firstTokenChars (l : List Char) : List Char :=
  l.takeWhile (fun c => !c.isWhitespace)

/-- Python `sub in s` (substring test) on character lists. -/
def containsSeq (sub : List Char) : List Char → Bool
  | [] => sub.isEmpty
  | c :: cs => sub.isPrefixOf (c :: cs) || containsSeq sub cs

/-- Python `s[:n]`. -/
def strTake (n : Nat) (s : String) : String := String.mk (s.data.take n)

/-- One entry of the `peers` argument of `generate_config_string`: a Python
dict with required keys `public_key` and `allowed_ips` and optional keys
`endpoint` and `keepalive` (absence is `none`).  Values are strings, as in
the source's `List[Dict[str, str]]` annotation. -/
structure Peer where
  public_key : String
  allowed_ips : String
  endpoint : Option String
  keepalive : Option String
deriving DecidableEq

/-- The `[Peer]` block lines appended for one peer by the loop in
`generate_config_string` (engine.py lines 94-109).  The endpoint line is
emitted iff the key is present and truthy (nonempty); the keepalive line is
emitted iff the key is present; a blank line closes the block. -/
def peerLines (p : Peer) : List String :=
  ["[Peer]", "PublicKey = " ++ p.public_key, "AllowedIPs = " ++ p.allowed_ips]
    ++ (match p.endpoint with
        | some e => if e = "" then [] else ["Endpoint = " ++ e]
        | none => [])
    ++ (match p.keepalive with
        | some k => ["PersistentKeepalive = " ++ k]
        | none => [])
    ++ [""]

/-- The `[Interface]` block lines of `generate_config_string`
(engine.py lines 85-91), ending with the blank separator line. -/
def interfaceLines (private_key local_ip : String) (listen_port : Nat) : List String :=
  ["[Interface]", "PrivateKey = " ++ private_key, "Address = " ++ local_ip,
   "ListenPort = " ++ toString listen_port, ""]

/-- The full `config_lines` list built by `generate_config_string`. -/
def configLines (private_key local_ip : String) (listen_port : Nat)
    (peers : List Peer) : List String :=
  interfaceLines private_key local_ip listen_port ++ (peers.map peerLines).flatten

/-- The per-peer debug log messages of the loop in `generate_config_string`:
`"Adding peer {idx + 1}: {peer.get('public_key', 'N/A')[:20]}..."`. -/
def peerLogs : Nat → List Peer → List String
  | _, [] => []
  | i, p :: rest =>
    ("Adding peer " ++ toString (i + 1) ++ ": " ++ strTake 20 p.public_key ++ "...")
      :: peerLogs (i + 1) rest

/-- `generate_config_string` (engine.py lines 35-114), returned together with
the log messages it emits, in order.  The `peers` parameter is `Option` to
model the Python default `peers=None`, normalized to `[]` at entry. -/
def generate_config (private_key local_ip : String) (listen_port : Nat)
    (peers : Option (List Peer)) : String × List String :=
  let ps := match peers with | none => [] | some l => l
  let lines := configLines private_key local_ip listen_port ps
  (pyJoin "\n" lines,
   ("Generating WireGuard config: local_ip=" ++ local_ip ++ ", peers="
      ++ toString ps.length)
     :: (peerLogs 0 ps
         ++ ["Config generated successfully: " ++ toString lines.length ++ " lines"]))

/-- The return value of `generate_config_string`: the rendered config text. -/
def generate_config_string (private_key local_ip : String) (listen_port : Nat)
    (peers : Option (List Peer)) : String :=
  (generate_config private_key local_ip listen_port peers).1

/-- The result of one awaited subprocess (`process.communicate()` plus
`process.returncode`); the streams are the permissively decoded texts. -/
structure ProcResult where
  returncode : Int
  stdout : String
  stderr : String
deriving DecidableEq

/-- Outcome of attempting `asyncio.create_subprocess_exec`:
the executable may be missing (`FileNotFoundError`), some other exception
may occur (`failed`), or the process runs to completion (`ran`). -/
inductive ExecOutcome where
  | notFound
  | failed (msg : String)
  | ran (r : ProcResult)
deriving DecidableEq

/-- How a subprocess was invoked: with an explicit argument vector
(`create_subprocess_exec`, `shell=False`) or as a shell-interpreted command
line.  The source only ever produces `exec`; `shell` exists so that the
no-shell-interpretation claims are statable. -/
inductive Invocation where
  | exec (argv : List String)
  | shell (cmdline : String)
deriving DecidableEq

/-- `config_dir / f"{tunnel_name}.conf"`. -/
def pathJoin (dir leaf : String) : String := dir ++ "/" ++ leaf

/-- The remediation message raised when `wireguard.exe` is missing
(quote characters omitted). -/
def wireguardNotFoundMsg : String :=
  "wireguard.exe not found. Ensure WireGuard for Windows is installed and "
    ++ "C:\\Program Files\\WireGuard is in your system PATH.\n"
    ++ "Download: https://www.wireguard.com/install/"

/-- Environment of one `start_safenet_tunnel` run: whether
`config_dir.mkdir` raises (and its message), whether
`config_file.write_text` raises, whether the resolved path `exists()`, how
`Path.resolve` maps the relative config path to an absolute one, and the
outcome of the `wireguard.exe` subprocess. -/
structure StartEnv where
  mkdirError : Option String
  writeError : Option String
  fileOnDisk : Bool
  resolve : String → String
  exec : ExecOutcome

/-- Observable outcome of a `start_safenet_tunnel` run: the Python result
(`.error` = raised exception message, `.ok` = returned value), the
subprocess invocations attempted, the files deleted, and the log messages
emitted, in order. -/
structure StartRun where
  result : Except String Bool
  invoked : List Invocation
  deleted : List String
  logs : List String

/-- `start_safenet_tunnel` (engine.py lines 122-231).  Control flow:
mkdir; write the config (write failure is wrapped and re-raised); resolve
the absolute path; abort if the file is missing; run
`wireguard.exe /installtunnelservice <abs-path>`; exit code 0 returns
`True`; a non-zero exit raises a `RuntimeError` carrying stderr, which the
function's own broad `except Exception` catches and re-wraps as
`"Tunnel start failed: ..."`; `FileNotFoundError` raises the remediation
message.  No branch deletes any file. -/
def start_safenet_tunnel (config_string tunnel_name config_dir : String)
    (env : StartEnv) : StartRun :=
  let logs0 := ["Starting WireGuard tunnel: " ++ tunnel_name]
  match env.mkdirError with
  | some e => ⟨.error e, [], [], logs0⟩
  | none =>
    let config_file := pathJoin config_dir (tunnel_name ++ ".conf")
    let logs1 := logs0 ++ ["Writing config to: " ++ config_file]
    match env.writeError with
    | some e =>
        ⟨.error ("Config file write failed: " ++ e), [], [],
         logs1 ++ ["Failed to write config file: " ++ e]⟩
    | none =>
      let logs2 := logs1 ++ ["Config file written: " ++ config_file ++ " ("
                              ++ toString config_string.length ++ " bytes)"]
      let absolute_config_path := env.resolve config_file
      let logs3 := logs2 ++ ["Resolved absolute path: " ++ absolute_config_path]
      if env.fileOnDisk then
        let wireguard_cmd := ["wireguard.exe", "/installtunnelservice", absolute_config_path]
        let logs4 := logs3 ++ ["Executing: " ++ pyJoin " " wireguard_cmd]
        match env.exec with
        | .notFound =>
            ⟨.error wireguardNotFoundMsg, [Invocation.exec wireguard_cmd], [],
             logs4 ++ ["wireguard.exe not found in system PATH"]⟩
        | .failed m =>
            ⟨.error ("Tunnel start failed: " ++ m), [Invocation.exec wireguard_cmd], [],
             logs4 ++ ["Unexpected error during tunnel start: " ++ m]⟩
        | .ran r =>
            let stdout_text := pyStrip r.stdout
            let stderr_text := pyStrip r.stderr
            if r.returncode = 0 then
              ⟨.ok true, [Invocation.exec wireguard_cmd], [],
               logs4 ++ ["Tunnel " ++ tunnel_name ++ " started successfully"]
                 ++ (if stdout_text = "" then [] else ["stdout: " ++ stdout_text])⟩
            else
              let msg1 := "Tunnel start failed with exit code "
                            ++ toString r.returncode ++ ": " ++ stderr_text
              ⟨.error ("Tunnel start failed: " ++ msg1), [Invocation.exec wireguard_cmd], [],
               logs4 ++ ["Tunnel start failed (exit code: " ++ toString r.returncode ++ ")"]
                 ++ (if stderr_text = "" then [] else ["stderr: " ++ stderr_text])
                 ++ ["Unexpected error during tunnel start: " ++ msg1]⟩
      else
        ⟨.error ("Config file not found: " ++ absolute_config_path), [], [],
         logs3 ++ ["Config file does not exist: " ++ absolute_config_path]⟩

/-- Environment of one `stop_safenet_tunnel` run: the outcome of the
`wireguard.exe` subprocess, whether the config file `exists()`, and whether
`unlink()` raises. -/
structure StopEnv where
  exec : ExecOutcome
  configOnDisk : Bool
  unlinkError : Option String
deriving DecidableEq

/-- Observable outcome of a `stop_safenet_tunnel` run. -/
structure StopRun where
  result : Except String Bool
  invoked : List Invocation
  deleted : List String
  logs : List String

/-- `stop_safenet_tunnel` (engine.py lines 234-331).  Runs
`wireguard.exe /uninstalltunnelservice <tunnel-name>`; a non-zero exit is
logged as a warning and NOT raised; `FileNotFoundError` and other
exceptions during the call are raised; afterwards, if `delete_config` is
set and the file exists, it is unlinked, with unlink failures logged and
swallowed; the function then returns `True`. -/
def stop_safenet_tunnel (tunnel_name config_dir : String) (delete_config : Bool)
    (env : StopEnv) : StopRun :=
  let wireguard_cmd := ["wireguard.exe", "/uninstalltunnelservice", tunnel_name]
  let logs0 := ["Stopping WireGuard tunnel: " ++ tunnel_name,
                "Executing: " ++ pyJoin " " wireguard_cmd]
  match env.exec with
  | .notFound =>
      ⟨.error wireguardNotFoundMsg, [Invocation.exec wireguard_cmd], [],
       logs0 ++ ["wireguard.exe not found in system PATH"]⟩
  | .failed m =>
      ⟨.error ("Tunnel stop failed: " ++ m), [Invocation.exec wireguard_cmd], [],
       logs0 ++ ["Unexpected error during tunnel stop: " ++ m]⟩
  | .ran r =>
    let stdout_text := pyStrip r.stdout
    let stderr_text := pyStrip r.stderr
    let logs1 := logs0 ++
      (if r.returncode = 0 then
        ["Tunnel " ++ tunnel_name ++ " stopped successfully"]
          ++ (if stdout_text = "" then [] else ["stdout: " ++ stdout_text])
       else
        ["Tunnel stop returned non-zero exit code: " ++ toString r.returncode]
          ++ (if stderr_text = "" then [] else ["stderr: " ++ stderr_text]))
    if delete_config then
      let config_file := pathJoin config_dir (tunnel_name ++ ".conf")
      if env.configOnDisk then
        match env.unlinkError with
        | none =>
            ⟨.ok true, [Invocation.exec wireguard_cmd], [config_file],
             logs1 ++ ["Deleting config file: " ++ config_file,
                       "Config file deleted: " ++ config_file]⟩
        | some e =>
            ⟨.ok true, [Invocation.exec wireguard_cmd], [],
             logs1 ++ ["Deleting config file: " ++ config_file,
                       "Failed to delete config file: " ++ e]⟩
      else
        ⟨.ok true, [Invocation.exec wireguard_cmd], [],
         logs1 ++ ["Config file does not exist (already deleted?): " ++ config_file]⟩
    else
      ⟨.ok true, [Invocation.exec wireguard_cmd], [], logs1⟩

/-- One iteration of the `for line in stdout_text.split("\n")` loop of
`get_tunnel_status`: lines containing `STATE` and a colon overwrite
`status["state"]` with the leading whitespace-delimited token of the
stripped text after the first colon, or `"UNKNOWN"` if that text is empty. -/
def parseLineAcc (acc : Option String) (line : List Char) : Option String :=
  if containsSeq "STATE".data line then
    match afterColonChars line with
    | some rest =>
      let state_info := stripChars rest
      if state_info.isEmpty then some "UNKNOWN"
      else some (String.mk (firstTokenChars state_info))
    | none => acc
  else acc

/-- The parse loop of `get_tunnel_status` (engine.py lines 383-390): the
final value of `status["state"]`, or `none` if the dict stays empty. -/
def parseState (s : String) : Option String :=
  (splitLinesChars s.data).foldl parseLineAcc none

/-- Environment of one `get_tunnel_status` run: the outcome of the
`sc query` subprocess. -/
structure StatusEnv where
  exec : ExecOutcome
deriving DecidableEq

/-- Observable outcome of a `get_tunnel_status` run. -/
structure StatusRun where
  result : Except String (Option (List (String × String)))
  invoked : List Invocation

/-- `get_tunnel_status` (engine.py lines 334-401).  Runs
`sc query WireGuardTunnel$<tunnel-name>`; on exit code 0 with nonempty
stripped output it parses the state line into `{"state": token}`; an empty
parse result, a non-zero exit, empty output, or any exception (the broad
`except Exception` also catches `FileNotFoundError`) yields `None`. -/
def get_tunnel_status (tunnel_name : String) (env : StatusEnv) : StatusRun :=
  let service_name := "WireGuardTunnel$" ++ tunnel_name
  let sc_cmd := ["sc", "query", service_name]
  match env.exec with
  | .notFound => ⟨.ok none, [Invocation.exec sc_cmd]⟩
  | .failed _ => ⟨.ok none, [Invocation.exec sc_cmd]⟩
  | .ran r =>
    let stdout_text := pyStrip r.stdout
    if r.returncode = 0 ∧ stdout_text ≠ "" then
      match parseState stdout_text with
      | some v => ⟨.ok (some [("state", v)]), [Invocation.exec sc_cmd]⟩
      | none => ⟨.ok none, [Invocation.exec sc_cmd]⟩
    else ⟨.ok none, [Invocation.exec sc_cmd]⟩

/-- Line-head test: `pre` is a leading segment of `s` (used to count
`Endpoint = ` / `PersistentKeepalive = ` lines). -/
def hasPre (pre s : String) : Bool := pre.data.isPrefixOf s.data

/-- The log trace of `generate_config` expressed as a function that does not
take the private key at all (the line count is taken from a rendering with
the empty key, since the number of lines is key-independent).  Used to state
that the renderer's logs carry no information about `private_key`. -/
def renderLogsSpec (local_ip : String) (listen_port : Nat)
    (peers : Option (List Peer)) : List String :=
  let ps := match peers with | none => [] | some l => l
  ("Generating WireGuard config: local_ip=" ++ local_ip ++ ", peers="
      ++ toString ps.length)
    :: (peerLogs 0 ps
        ++ ["Config generated successfully: "
              ++ toString (configLines "" local_ip listen_port ps).length ++ " lines"])

/-- The log trace of `start_safenet_tunnel` expressed as a function of the
LENGTH of the config text only (plus the non-secret inputs): the config
content itself never reaches a log line. -/
def startLogsSpec (csLen : Nat) (tunnel_name config_dir : String)
    (env : StartEnv) : List String :=
  let logs0 := ["Starting WireGuard tunnel: " ++ tunnel_name]
  match env.mkdirError with
  | some _ => logs0
  | none =>
    let config_file := pathJoin config_dir (tunnel_name ++ ".conf")
    let logs1 := logs0 ++ ["Writing config to: " ++ config_file]
    match env.writeError with
    | some e => logs1 ++ ["Failed to write config file: " ++ e]
    | none =>
      let logs2 := logs1 ++ ["Config file written: " ++ config_file ++ " ("
                              ++ toString csLen ++ " bytes)"]
      let absolute_config_path := env.resolve config_file
      let logs3 := logs2 ++ ["Resolved absolute path: " ++ absolute_config_path]
      if env.fileOnDisk then
        let wireguard_cmd := ["wireguard.exe", "/installtunnelservice", absolute_config_path]
        let logs4 := logs3 ++ ["Executing: " ++ pyJoin " " wireguard_cmd]
        match env.exec with
        | .notFound => logs4 ++ ["wireguard.exe not found in system PATH"]
        | .failed m => logs4 ++ ["Unexpected error during tunnel start: " ++ m]
        | .ran r =>
            let stdout_text := pyStrip r.stdout
            let stderr_text := pyStrip r.stderr
            if r.returncode = 0 then
              logs4 ++ ["Tunnel " ++ tunnel_name ++ " started successfully"]
                ++ (if stdout_text = "" then [] else ["stdout: " ++ stdout_text])
            else
              let msg1 := "Tunnel start failed with exit code "
                            ++ toString r.returncode ++ ": " ++ stderr_text
              logs4 ++ ["Tunnel start failed (exit code: " ++ toString r.returncode ++ ")"]
                ++ (if stderr_text = "" then [] else ["stderr: " ++ stderr_text])
                ++ ["Unexpected error during tunnel start: " ++ msg1]
      else
        logs3 ++ ["Config file does not exist: " ++ absolute_config_path]

/-- Modelled from the spec (section 3, `TunnelState`): the status model the
spec claims the status operation produces.  The code has no corresponding
type; this is used only to state what claim C4 demands. -/
inductive TunnelState where
  | Absent
  | Stopped
  | StartPending
  | StopPending
  | Running
  | Unknown (code : String)
deriving DecidableEq

/-- Modelled from the spec (sections 3 and 4.3): the claimed mapping from
the daemon's numeric state codes to `TunnelState` (Windows SCM codes:
1 STOPPED, 2 START_PENDING, 3 STOP_PENDING, 4 RUNNING), with unknown codes
mapped to `Unknown(code)`.  No such mapping exists anywhere in the code. -/
def claimedStateOfCode (code : String) : TunnelState :=
  if code = "1" then .Stopped
  else if code = "2" then .StartPending
  else if code = "3" then .StopPending
  else if code = "4" then .Running
  else .Unknown code

/-- A canonical `sc query` output whose state line carries the given code
token: a service-name line followed by the state line. -/
def statusOutput (code : String) : String :=
  "SERVICE_NAME: WireGuardTunnel$safenet\n        STATE              : "
    ++ code ++ "  SOME_STATE"

/-! ### Sanity checks: concrete renderings and parses match the source -/

theorem generate_config_string_sample_no_peer :
    generate_config_string "K1" "10.8.0.1/24" 51820 (some []) =
      "[Interface]\nPrivateKey = K1\nAddress = 10.8.0.1/24\nListenPort = 51820\n" := by
  decide

theorem generate_config_string_sample_one_peer :
    generate_config_string "K" "10.8.0.1/24" 51820
        (some [⟨"P1", "10.8.0.2/32", some "1.2.3.4:51820", none⟩]) =
      "[Interface]\nPrivateKey = K\nAddress = 10.8.0.1/24\nListenPort = 51820\n\n"
        ++ "[Peer]\nPublicKey = P1\nAllowedIPs = 10.8.0.2/32\nEndpoint = 1.2.3.4:51820\n" := by
  decide

theorem get_tunnel_status_sample_running :
    (get_tunnel_status "safenet"
      ⟨ExecOutcome.ran ⟨0,
        "SERVICE_NAME: WireGuardTunnel$safenet\n        STATE              : 4  RUNNING",
        ""⟩⟩).result = .ok (some [("state", "4")]) := rfl

/-! ### Helper lemmas about strings and line lists -/

theorem str_ne_of_length_ne {s t : String} (h : s.length ≠ t.length) : s ≠ t :=
  fun e => h (congrArg String.length e)

theorem append_lit_ne {pre t : String} (s : String) (h : t.length < pre.length) :
    pre ++ s ≠ t := by
  intro e
  have h2 := congrArg String.length e
  rw [String.length_append] at h2
  omega

theorem str_length_pos_of_ne {e : String} (h : e ≠ "") : 0 < e.length := by
  cases e with
  | mk l =>
    cases l with
    | nil => exact absurd rfl h
    | cons c cs => simp

theorem addr_append_ne_interface (s : String) : "Address = " ++ s ≠ "[Interface]" := by
  intro e
  have h := congrArg String.data e
  rw [String.data_append] at h
  injection h with h1 _
  exact absurd h1 (by decide)

theorem endpoint_append_ne_interface {e : String} (he : e ≠ "") :
    "Endpoint = " ++ e ≠ "[Interface]" := by
  apply str_ne_of_length_ne
  rw [String.length_append]
  have := str_length_pos_of_ne he
  have h1 : ("Endpoint = " : String).length = 11 := rfl
  have h2 : ("[Interface]" : String).length = 11 := rfl
  omega

theorem peerLines_count_peer (p : Peer) : (peerLines p).count "[Peer]" = 1 := by
  have h1 : ("[Peer]" : String) ≠ "PublicKey = " ++ p.public_key :=
    Ne.symm (append_lit_ne _ (by decide))
  have h2 : ("[Peer]" : String) ≠ "AllowedIPs = " ++ p.allowed_ips :=
    Ne.symm (append_lit_ne _ (by decide))
  have h3 : ∀ e : String, ("[Peer]" : String) ≠ "Endpoint = " ++ e :=
    fun e => Ne.symm (append_lit_ne _ (by decide))
  have h4 : ∀ k : String, ("[Peer]" : String) ≠ "PersistentKeepalive = " ++ k :=
    fun k => Ne.symm (append_lit_ne _ (by decide))
  rcases p with ⟨pk, ai, ep, ka⟩
  rcases ep with _ | e
  · rcases ka with _ | k <;>
      simp [peerLines, List.count_cons, List.count_append, h1, h2, h4]
  · by_cases he : e = "" <;> rcases ka with _ | k <;>
      simp [peerLines, List.count_cons, List.count_append, h1, h2, h3, h4, he]

theorem peerLines_count_interface (p : Peer) : (peerLines p).count "[Interface]" = 0 := by
  have h1 : ("[Interface]" : String) ≠ "PublicKey = " ++ p.public_key :=
    Ne.symm (append_lit_ne _ (by decide))
  have h2 : ("[Interface]" : String) ≠ "AllowedIPs = " ++ p.allowed_ips :=
    Ne.symm (append_lit_ne _ (by decide))
  have h4 : ∀ k : String, ("[Interface]" : String) ≠ "PersistentKeepalive = " ++ k :=
    fun k => Ne.symm (append_lit_ne _ (by decide))
  rcases p with ⟨pk, ai, ep, ka⟩
  rcases ep with _ | e
  · rcases ka with _ | k <;>
      simp [peerLines, List.count_cons, List.count_append, h1, h2, h4]
  · have h3 : e ≠ "" → ("[Interface]" : String) ≠ "Endpoint = " ++ e :=
      fun he => Ne.symm (endpoint_append_ne_interface he)
    by_cases he : e = "" <;> rcases ka with _ | k <;>
      simp [peerLines, List.count_cons, List.count_append, h1, h2, h3, h4, he]

theorem interfaceLines_count_interface (pk lip : String) (port : Nat) :
    (interfaceLines pk lip port).count "[Interface]" = 1 := by
  have h1 : ("[Interface]" : String) ≠ "PrivateKey = " ++ pk :=
    Ne.symm (append_lit_ne _ (by decide))
  have h2 : ("[Interface]" : String) ≠ "Address = " ++ lip :=
    Ne.symm (addr_append_ne_interface lip)
  have h3 : ("[Interface]" : String) ≠ "ListenPort = " ++ toString port :=
    Ne.symm (append_lit_ne _ (by decide))
  simp [interfaceLines, List.count_cons, h1, h2, h3]

theorem interfaceLines_count_peer (pk lip : String) (port : Nat) :
    (interfaceLines pk lip port).count "[Peer]" = 0 := by
  have h1 : ("[Peer]" : String) ≠ "PrivateKey = " ++ pk :=
    Ne.symm (append_lit_ne _ (by decide))
  have h2 : ("[Peer]" : String) ≠ "Address = " ++ lip :=
    Ne.symm (append_lit_ne _ (by decide))
  have h3 : ("[Peer]" : String) ≠ "ListenPort = " ++ toString port :=
    Ne.symm (append_lit_ne _ (by decide))
  simp [interfaceLines, List.count_cons, h1, h2, h3]

theorem peerLines_getLast (p : Peer) : (peerLines p).getLast? = some "" := by
  rcases p with ⟨pk, ai, ep, ka⟩
  rcases ep with _ | e
  · rcases ka with _ | k <;> simp [peerLines]
  · by_cases he : e = "" <;> rcases ka with _ | k <;> simp [peerLines, he]

theorem isPrefixOf_take_false {α} [BEq α] [LawfulBEq α] :
    ∀ (p l r : List α), (p.take l.length).isPrefixOf l = false →
      p.isPrefixOf (l ++ r) = false := by
  intro p
  induction p with
  | nil => intro l r h; simp at h
  | cons a as ih =>
    intro l r h
    cases l with
    | nil => simp at h
    | cons b bs =>
      simp only [List.length_cons, List.take_succ_cons, List.isPrefixOf_cons₂] at h
      rw [List.cons_append, List.isPrefixOf_cons₂]
      cases hab : a == b with
      | false => simp [hab]
      | true =>
        simp only [hab, Bool.true_and] at h ⊢
        exact ih bs r h

theorem isPrefixOf_append_self {α} [BEq α] [LawfulBEq α] (p r : List α) :
    p.isPrefixOf (p ++ r) = true :=
  List.isPrefixOf_iff_prefix.mpr (List.prefix_append p r)

theorem hasPre_append_self (pre s : String) : hasPre pre (pre ++ s) = true := by
  rw [hasPre, String.data_append]
  exact isPrefixOf_append_self _ _

theorem hasPre_lit_append_false {pre lit : String} (s : String)
    (h : (pre.data.take lit.data.length).isPrefixOf lit.data = false) :
    hasPre pre (lit ++ s) = false := by
  rw [hasPre, String.data_append]
  exact isPrefixOf_take_false _ _ _ h

theorem countE_peerLines (p : Peer) :
    (peerLines p).countP (fun l => hasPre "Endpoint = " l) =
      (match p.endpoint with
       | some e => if e = "" then 0 else 1
       | none => 0) := by
  have h0 : hasPre "Endpoint = " "[Peer]" = false := by decide
  have h5 : hasPre "Endpoint = " "" = false := by decide
  have h1 : ∀ s, hasPre "Endpoint = " ("PublicKey = " ++ s) = false :=
    fun s => hasPre_lit_append_false s (by decide)
  have h2 : ∀ s, hasPre "Endpoint = " ("AllowedIPs = " ++ s) = false :=
    fun s => hasPre_lit_append_false s (by decide)
  have h4 : ∀ k, hasPre "Endpoint = " ("PersistentKeepalive = " ++ k) = false :=
    fun k => hasPre_lit_append_false k (by decide)
  have h3 : ∀ e, hasPre "Endpoint = " ("Endpoint = " ++ e) = true :=
    fun e => hasPre_append_self _ e
  rcases p with ⟨pk, ai, ep, ka⟩
  rcases ep with _ | e
  · rcases ka with _ | k <;>
      simp [peerLines, List.countP_cons, List.countP_append, h0, h1, h2, h4, h5]
  · by_cases he : e = "" <;> rcases ka with _ | k <;>
      simp [peerLines, List.countP_cons, List.countP_append, h0, h1, h2, h3, h4, h5, he]

theorem countK_peerLines (p : Peer) :
    (peerLines p).countP (fun l => hasPre "PersistentKeepalive = " l) =
      (match p.keepalive with
       | some _ => 1
       | none => 0) := by
  have h0 : hasPre "PersistentKeepalive = " "[Peer]" = false := by decide
  have h5 : hasPre "PersistentKeepalive = " "" = false := by decide
  have h1 : ∀ s, hasPre "PersistentKeepalive = " ("PublicKey = " ++ s) = false :=
    fun s => hasPre_lit_append_false s (by decide)
  have h2 : ∀ s, hasPre "PersistentKeepalive = " ("AllowedIPs = " ++ s) = false :=
    fun s => hasPre_lit_append_false s (by decide)
  have h3 : ∀ e, hasPre "PersistentKeepalive = " ("Endpoint = " ++ e) = false :=
    fun e => hasPre_lit_append_false e (by decide)
  have h4 : ∀ k, hasPre "PersistentKeepalive = " ("PersistentKeepalive = " ++ k) = true :=
    fun k => hasPre_append_self _ k
  rcases p with ⟨pk, ai, ep, ka⟩
  rcases ep with _ | e
  · rcases ka with _ | k <;>
      simp [peerLines, List.countP_cons, List.countP_append, h0, h1, h2, h3, h4, h5]
  · by_cases he : e = "" <;> rcases ka with _ | k <;>
      simp [peerLines, List.countP_cons, List.countP_append, h0, h1, h2, h3, h4, h5, he]

/-! ### Claims C7, C8, C10: renderer structure -/

/-- C7: for every spec and every peer list (including the empty list), the
rendered line list is exactly one `[Interface]` block (which comes first and
ends with a blank line) followed by the peer blocks in input order, with
exactly `peers.length` many `[Peer]` lines, each peer block terminated by a
blank line; the rendered text is the newline-join of those lines. -/
theorem C7_render_block_structure (pk lip : String) (port : Nat) (peers : List Peer) :
    configLines pk lip port peers =
        interfaceLines pk lip port ++ (peers.map peerLines).flatten
      ∧ interfaceLines pk lip port =
        ["[Interface]", "PrivateKey = " ++ pk, "Address = " ++ lip,
         "ListenPort = " ++ toString port, ""]
      ∧ (configLines pk lip port peers).count "[Interface]" = 1
      ∧ (configLines pk lip port peers).count "[Peer]" = peers.length
      ∧ (configLines pk lip port peers).head? = some "[Interface]"
      ∧ (interfaceLines pk lip port).getLast? = some ""
      ∧ (∀ p ∈ peers, (peerLines p).getLast? = some "")
      ∧ generate_config_string pk lip port (some peers) =
          pyJoin "\n" (configLines pk lip port peers) := by
  refine ⟨rfl, rfl, ?_, ?_, rfl, rfl, fun p _ => peerLines_getLast p, rfl⟩
  · rw [configLines, List.count_append, interfaceLines_count_interface,
        List.count_flatten, List.map_map]
    have h : peers.map (List.count "[Interface]" ∘ peerLines) = peers.map (fun _ => 0) :=
      List.map_congr_left (fun p _ => peerLines_count_interface p)
    rw [h, List.map_const', List.sum_const_nat]
    omega
  · rw [configLines, List.count_append, interfaceLines_count_peer,
        List.count_flatten, List.map_map]
    have h : peers.map (List.count "[Peer]" ∘ peerLines) = peers.map (fun _ => 1) :=
      List.map_congr_left (fun p _ => peerLines_count_peer p)
    rw [h, List.map_const', List.sum_const_nat]
    omega

/-- Witness for C7 at a concrete spec with one peer. -/
theorem C7_render_block_structure_witness :
    (configLines "K" "10.8.0.1/24" 51820
        [⟨"P1", "10.8.0.2/32", some "1.2.3.4:51820", none⟩]).count "[Peer]" = 1
    ∧ (peerLines (⟨"P1", "10.8.0.2/32", some "1.2.3.4:51820", none⟩ : Peer)).getLast? =
        some "" := by
  have h := C7_render_block_structure "K" "10.8.0.1/24" 51820
    [⟨"P1", "10.8.0.2/32", some "1.2.3.4:51820", none⟩]
  exact ⟨h.2.2.2.1, h.2.2.2.2.2.2.1 _ (by simp)⟩

/-- C8: each peer block contains its public-key and allowed-IPs lines
unconditionally; it contains an `Endpoint = ` line iff the endpoint field is
present and nonempty (and then exactly one such line, holding that exact
value); it contains a `PersistentKeepalive = ` line iff the keepalive field
is present — including the literal value `"0"` — and then exactly one such
line with that exact value. -/
theorem C8_peer_optional_field_gating (p : Peer) :
    ("PublicKey = " ++ p.public_key) ∈ peerLines p
    ∧ ("AllowedIPs = " ++ p.allowed_ips) ∈ peerLines p
    ∧ (peerLines p).countP (fun l => hasPre "Endpoint = " l) =
        (match p.endpoint with
         | some e => if e = "" then 0 else 1
         | none => 0)
    ∧ (∀ e, p.endpoint = some e → e ≠ "" → ("Endpoint = " ++ e) ∈ peerLines p)
    ∧ (peerLines p).countP (fun l => hasPre "PersistentKeepalive = " l) =
        (match p.keepalive with
         | some _ => 1
         | none => 0)
    ∧ (∀ k, p.keepalive = some k → ("PersistentKeepalive = " ++ k) ∈ peerLines p) := by
  refine ⟨by simp [peerLines], by simp [peerLines], countE_peerLines p, ?_,
          countK_peerLines p, ?_⟩
  · intro e he hne
    simp [peerLines, he, hne]
  · intro k hk
    simp [peerLines, hk]

/-- Witness for C8 at a peer with an endpoint and an explicit keepalive of 0. -/
theorem C8_peer_optional_field_gating_witness :
    ("Endpoint = 1.2.3.4:51820" : String) ∈
        peerLines ⟨"P1", "10.8.0.2/32", some "1.2.3.4:51820", some "0"⟩
    ∧ ("PersistentKeepalive = 0" : String) ∈
        peerLines ⟨"P1", "10.8.0.2/32", some "1.2.3.4:51820", some "0"⟩
    ∧ (peerLines ⟨"P1", "10.8.0.2/32", some "1.2.3.4:51820", some "0"⟩).countP
        (fun l => hasPre "PersistentKeepalive = " l) = 1 := by
  have h := C8_peer_optional_field_gating ⟨"P1", "10.8.0.2/32", some "1.2.3.4:51820", some "0"⟩
  exact ⟨h.2.2.2.1 _ rfl (by decide), h.2.2.2.2.2 _ rfl, h.2.2.2.2.1⟩

/-- C10: calling the renderer with `peers=None` (the Python default) returns
exactly the same string as calling it with `peers=[]`. -/
theorem C10_none_default_is_empty_list (pk lip : String) (port : Nat) :
    generate_config_string pk lip port none = generate_config_string pk lip port (some []) :=
  rfl

/-! ### Claims C1, C2, C3, C5, C6: lifecycle operations -/

theorem start_invoked_shape (cs tn cd : String) (env : StartEnv) :
    (start_safenet_tunnel cs tn cd env).invoked = []
    ∨ (start_safenet_tunnel cs tn cd env).invoked =
        [Invocation.exec ["wireguard.exe", "/installtunnelservice",
                          env.resolve (pathJoin cd (tn ++ ".conf"))]] := by
  rcases env with ⟨mk, we, fod, res, ex⟩
  rcases mk with _ | e
  · rcases we with _ | e2
    · cases fod
      · left; rfl
      · rcases ex with _ | m | r
        · right; rfl
        · right; rfl
        · by_cases hrc : r.returncode = 0 <;>
            simp [start_safenet_tunnel, hrc]
    · left; rfl
  · left; rfl

theorem stop_invoked_shape (tn cd : String) (dc : Bool) (env : StopEnv) :
    (stop_safenet_tunnel tn cd dc env).invoked =
      [Invocation.exec ["wireguard.exe", "/uninstalltunnelservice", tn]] := by
  rcases env with ⟨ex, cod, ue⟩
  rcases ex with _ | m | r
  · rfl
  · rfl
  · cases dc <;> cases cod <;> rcases ue with _ | e <;> rfl

/-- C1: every subprocess invocation attempted by `start` and `stop` — for
every tunnel name and config path, including ones containing shell
metacharacters — is an explicit three-element argument vector
`[exe, flag, value]` in which the name (resp. resolved path) is one single
opaque argument; no invocation is a shell command line. -/
theorem C1_argv_vector_no_shell (cs tn cd : String) (senv : StartEnv) (dc : Bool)
    (stenv : StopEnv) :
    (∀ inv ∈ (start_safenet_tunnel cs tn cd senv).invoked,
        inv = Invocation.exec ["wireguard.exe", "/installtunnelservice",
                               senv.resolve (pathJoin cd (tn ++ ".conf"))])
    ∧ (∀ inv ∈ (stop_safenet_tunnel tn cd dc stenv).invoked,
        inv = Invocation.exec ["wireguard.exe", "/uninstalltunnelservice", tn]) := by
  constructor
  · intro inv hm
    rcases start_invoked_shape cs tn cd senv with h | h <;> rw [h] at hm
    · simp at hm
    · simpa using hm
  · intro inv hm
    rw [stop_invoked_shape tn cd dc stenv] at hm
    simpa using hm

/-- Witness for C1: a tunnel name containing shell metacharacters is passed
through verbatim as the third element of the argument vector. -/
theorem C1_argv_vector_no_shell_witness :
    Invocation.exec ["wireguard.exe", "/uninstalltunnelservice", "x; rm -rf /"] ∈
        (stop_safenet_tunnel "x; rm -rf /" "data" true
          ⟨ExecOutcome.ran ⟨0, "", ""⟩, false, none⟩).invoked
    ∧ Invocation.exec ["wireguard.exe", "/installtunnelservice", "C:/data/x; rm -rf /.conf"] ∈
        (start_safenet_tunnel "cfg" "x; rm -rf /" "data"
          ⟨none, none, true, (fun s => "C:/" ++ s), ExecOutcome.ran ⟨0, "", ""⟩⟩).invoked
    ∧ Invocation.exec ["wireguard.exe", "/uninstalltunnelservice", "x; rm -rf /"] =
        Invocation.exec ["wireguard.exe", "/uninstalltunnelservice", "x; rm -rf /"] := by
  have h := C1_argv_vector_no_shell "cfg" "x; rm -rf /" "data"
    ⟨none, none, true, (fun s => "C:/" ++ s), ExecOutcome.ran ⟨0, "", ""⟩⟩ true
    ⟨ExecOutcome.ran ⟨0, "", ""⟩, false, none⟩
  refine ⟨by decide, by decide, ?_⟩
  exact h.2 _ (by decide)

/-- C2: whenever the uninstall subprocess runs to completion, `stop` returns
`True` and does not raise, regardless of the exit code — so stopping a
never-started or already-stopped tunnel yields the same success result as
stopping a running one. -/
theorem C2_stop_idempotent_success (tn cd : String) (dc : Bool) (env : StopEnv)
    (r : ProcResult) (h : env.exec = ExecOutcome.ran r) :
    (stop_safenet_tunnel tn cd dc env).result = .ok true := by
  rcases env with ⟨ex, cod, ue⟩
  cases h
  cases dc <;> cases cod <;> rcases ue with _ | e <;> rfl

/-- Witness for C2: stopping a ghost tunnel (uninstall exits 1, no config
file on disk) returns the same `.ok true` as stopping a running one. -/
theorem C2_stop_idempotent_success_witness :
    (stop_safenet_tunnel "ghost-tunnel" "data" true
        ⟨ExecOutcome.ran ⟨1, "", "service does not exist"⟩, false, none⟩).result = .ok true
    ∧ (stop_safenet_tunnel "safenet" "data" true
        ⟨ExecOutcome.ran ⟨0, "ok", ""⟩, true, none⟩).result = .ok true :=
  ⟨C2_stop_idempotent_success "ghost-tunnel" "data" true _ _ rfl,
   C2_stop_idempotent_success "safenet" "data" true _ _ rfl⟩

/-- C3: the status query never raises: its Python result is always a normal
return; a non-zero exit code or empty (stripped) output yields `None`, and
a missing executable or any other subprocess exception also yields `None`. -/
theorem C3_status_total (tn : String) (env : StatusEnv) :
    (∃ v, (get_tunnel_status tn env).result = .ok v)
    ∧ (∀ r, env.exec = ExecOutcome.ran r →
        (r.returncode ≠ 0 ∨ pyStrip r.stdout = "") →
        (get_tunnel_status tn env).result = .ok none)
    ∧ (∀ m, env.exec = ExecOutcome.failed m →
        (get_tunnel_status tn env).result = .ok none)
    ∧ (env.exec = ExecOutcome.notFound →
        (get_tunnel_status tn env).result = .ok none) := by
  rcases env with ⟨ex⟩
  refine ⟨?_, ?_, ?_, ?_⟩
  · rcases ex with _ | m | r
    · exact ⟨none, rfl⟩
    · exact ⟨none, rfl⟩
    · by_cases hc : r.returncode = 0 ∧ pyStrip r.stdout ≠ ""
      · cases hps : parseState (pyStrip r.stdout) with
        | some v => exact ⟨some [("state", v)], by simp [get_tunnel_status, hc, hps]⟩
        | none => exact ⟨none, by simp [get_tunnel_status, hc, hps]⟩
      · exact ⟨none, by simp [get_tunnel_status, hc]⟩
  · intro r hr hcond
    cases hr
    have hc : ¬(r.returncode = 0 ∧ pyStrip r.stdout ≠ "") := by
      rcases hcond with h | h
      · exact fun hx => h hx.1
      · exact fun hx => hx.2 h
    simp [get_tunnel_status, hc]
  · intro m hm; cases hm; rfl
  · intro hm; cases hm; rfl

/-- Witness for C3: querying a nonexistent service (exit code 1060, empty
output) and a query whose subprocess raises both return `None` without
raising. -/
theorem C3_status_total_witness :
    (get_tunnel_status "ghost" ⟨ExecOutcome.ran ⟨1060, "", ""⟩⟩).result = .ok none
    ∧ (get_tunnel_status "ghost" ⟨ExecOutcome.failed "boom"⟩).result = .ok none
    ∧ (get_tunnel_status "ghost" ⟨ExecOutcome.notFound⟩).result = .ok none :=
  ⟨(C3_status_total "ghost" _).2.1 _ rfl (Or.inl (by decide)),
   (C3_status_total "ghost" _).2.2.1 "boom" rfl,
   (C3_status_total "ghost" _).2.2.2 rfl⟩

/-- C5: if writing the config file fails, `start` raises the fatal
`Config file write failed` error and attempts no subprocess invocation;
conversely, a privileged invocation is only ever attempted after the
directory creation and the write succeeded and the resolved path passed the
existence check. -/
theorem C5_write_failure_aborts (cs tn cd : String) (env : StartEnv) :
    (∀ e, env.mkdirError = none → env.writeError = some e →
        (start_safenet_tunnel cs tn cd env).result =
            .error ("Config file write failed: " ++ e)
          ∧ (start_safenet_tunnel cs tn cd env).invoked = [])
    ∧ ((start_safenet_tunnel cs tn cd env).invoked ≠ [] →
        env.mkdirError = none ∧ env.writeError = none ∧ env.fileOnDisk = true) := by
  rcases env with ⟨mk, we, fod, res, ex⟩
  constructor
  · intro e hmk hwe
    cases hmk
    cases hwe
    exact ⟨rfl, rfl⟩
  · intro hne
    rcases mk with _ | e
    · rcases we with _ | e2
      · cases fod
        · exact absurd rfl hne
        · exact ⟨rfl, rfl, rfl⟩
      · exact absurd rfl hne
    · exact absurd rfl hne

/-- Witness for C5: a failing write yields the fatal error and an empty
invocation list; a successful run has a nonempty invocation list with all
preconditions established. -/
theorem C5_write_failure_aborts_witness :
    (start_safenet_tunnel "cfg" "safenet" "data"
        ⟨none, some "Permission denied", true, (fun s => s), ExecOutcome.ran ⟨0, "", ""⟩⟩).result
      = .error "Config file write failed: Permission denied"
    ∧ (start_safenet_tunnel "cfg" "safenet" "data"
        ⟨none, some "Permission denied", true, (fun s => s), ExecOutcome.ran ⟨0, "", ""⟩⟩).invoked
      = [] := by
  exact (C5_write_failure_aborts "cfg" "safenet" "data" _).1 "Permission denied" rfl rfl

/-- C6: when the install subprocess exits non-zero, `start` raises an
operational failure whose message carries the captured (stripped) stderr
text — concretely the doubly wrapped
`Tunnel start failed: Tunnel start failed with exit code N: <stderr>` —
and deletes no file, so the written config stays on disk; exit code 0
returns `True`. -/
theorem C6_nonzero_install_exit (cs tn cd : String) (env : StartEnv) (r : ProcResult)
    (hmk : env.mkdirError = none) (hwe : env.writeError = none)
    (hfod : env.fileOnDisk = true) (hex : env.exec = ExecOutcome.ran r) :
    (start_safenet_tunnel cs tn cd env).deleted = []
    ∧ (r.returncode = 0 → (start_safenet_tunnel cs tn cd env).result = .ok true)
    ∧ (r.returncode ≠ 0 →
        (start_safenet_tunnel cs tn cd env).result =
            .error ("Tunnel start failed: " ++
              ("Tunnel start failed with exit code " ++ toString r.returncode ++ ": "
                ++ pyStrip r.stderr))
          ∧ ∃ pre, (start_safenet_tunnel cs tn cd env).result =
              .error (pre ++ pyStrip r.stderr)) := by
  rcases env with ⟨mk, we, fod, res, ex⟩
  cases hmk
  cases hwe
  cases hfod
  cases hex
  refine ⟨?_, ?_, ?_⟩
  · by_cases hrc : r.returncode = 0 <;> simp [start_safenet_tunnel, hrc]
  · intro hrc; simp [start_safenet_tunnel, hrc]
  · intro hrc
    constructor
    · simp [start_safenet_tunnel, hrc]
    · exact ⟨"Tunnel start failed: " ++
        ("Tunnel start failed with exit code " ++ toString r.returncode ++ ": "),
        by simp [start_safenet_tunnel, hrc, String.append_assoc]⟩

/-- Witness for C6: a failed install (exit 1, stderr present) raises the
wrapped operational error carrying the stderr text and deletes nothing;
a clean install (exit 0) returns `True`. -/
theorem C6_nonzero_install_exit_witness :
    (start_safenet_tunnel "cfg" "safenet" "data"
        ⟨none, none, true, (fun s => s), ExecOutcome.ran ⟨1, "", "access denied"⟩⟩).result
      = .error "Tunnel start failed: Tunnel start failed with exit code 1: access denied"
    ∧ (start_safenet_tunnel "cfg" "safenet" "data"
        ⟨none, none, true, (fun s => s), ExecOutcome.ran ⟨1, "", "access denied"⟩⟩).deleted
      = []
    ∧ (start_safenet_tunnel "cfg" "safenet" "data"
        ⟨none, none, true, (fun s => s), ExecOutcome.ran ⟨0, "", ""⟩⟩).result = .ok true := by
  have h1 := C6_nonzero_install_exit "cfg" "safenet" "data"
    ⟨none, none, true, (fun s => s), ExecOutcome.ran ⟨1, "", "access denied"⟩⟩
    ⟨1, "", "access denied"⟩ rfl rfl rfl rfl
  have h2 := C6_nonzero_install_exit "cfg" "safenet" "data"
    ⟨none, none, true, (fun s => s), ExecOutcome.ran ⟨0, "", ""⟩⟩
    ⟨0, "", ""⟩ rfl rfl rfl rfl
  refine ⟨?_, h1.1, h2.2.1 rfl⟩
  have h3 := (h1.2.2 (by decide)).1
  rw [h3]
  rfl

/-! ### Claim C9: the private key never reaches a log message -/

theorem configLines_length_key_free (pk pk2 lip : String) (port : Nat) (ps : List Peer) :
    (configLines pk lip port ps).length = (configLines pk2 lip port ps).length := by
  simp [configLines, interfaceLines]

theorem pyJoin_newline_length : ∀ l : List String,
    (pyJoin "\n" l).length = (l.map String.length).sum + (l.length - 1)
  | [] => by simp [pyJoin]
  | [s] => by simp [pyJoin]
  | s :: s2 :: rest => by
    have ih := pyJoin_newline_length (s2 :: rest)
    simp only [pyJoin, String.length_append, ih, List.map_cons, List.sum_cons,
      List.length_cons]
    have h1 : ("\n" : String).length = 1 := rfl
    omega

/-- C9: no log message emitted by render, start or stop depends on the
private key value.  The render log trace equals a function of the
non-secret fields only; the start log trace equals a function of the config
TEXT LENGTH and the non-secret inputs only; and the rendered text's length
decomposes as `pk.length + (length with empty key)`.  (`stop` takes no spec
at all, as its type shows.)  Hence every log line is determined by
non-secret data plus at most the key's length, so the key value itself
never appears through any log-emitting path. -/
theorem C9_private_key_not_logged (pk lip : String) (port : Nat)
    (peers : Option (List Peer)) (cs tn cd : String) (senv : StartEnv) :
    (generate_config pk lip port peers).2 = renderLogsSpec lip port peers
    ∧ (start_safenet_tunnel cs tn cd senv).logs = startLogsSpec cs.length tn cd senv
    ∧ (generate_config pk lip port peers).1.length =
        pk.length + (generate_config "" lip port peers).1.length := by
  refine ⟨?_, ?_, ?_⟩
  · rcases peers with _ | ps <;>
      simp [generate_config, renderLogsSpec,
        configLines_length_key_free pk "" lip port]
  · rcases senv with ⟨mk, we, fod, res, ex⟩
    rcases mk with _ | e
    · rcases we with _ | e2
      · cases fod
        · rfl
        · rcases ex with _ | m | r
          · rfl
          · rfl
          · by_cases hrc : r.returncode = 0 <;>
              simp [start_safenet_tunnel, startLogsSpec, hrc]
      · rfl
    · rfl
  · rcases peers with _ | ps <;>
      · simp only [generate_config, generate_config_string]
        rw [pyJoin_newline_length, pyJoin_newline_length,
          configLines_length_key_free "" pk lip port]
        simp only [configLines, interfaceLines, List.map_append, List.sum_append,
          List.map_cons, List.sum_cons, String.length_append]
        have h0 : ("" : String).length = 0 := rfl
        omega

/-! ### Claim C4: state-line parsing. Helper lemmas -/

theorem strMk_data (s : String) : String.mk s.data = s := by
  cases s
  rfl

theorem dropWhile_cons_false {p : Char → Bool} {c : Char} (h : p c = false)
    (l : List Char) : (c :: l).dropWhile p = c :: l := by
  simp [List.dropWhile_cons, h]

theorem stripChars_no_ws_ends (l : List Char)
    (h1 : ∀ c, l.head? = some c → c.isWhitespace = false)
    (h2 : ∀ c, l.getLast? = some c → c.isWhitespace = false) :
    stripChars l = l := by
  cases l with
  | nil => rfl
  | cons a as =>
    have ha : a.isWhitespace = false := h1 a rfl
    rw [stripChars, dropWhile_cons_false ha]
    cases hr : (a :: as).reverse with
    | nil => exact absurd hr (by simp)
    | cons b bs =>
      have hb : b.isWhitespace = false := by
        apply h2
        rw [← List.head?_reverse, hr]
        rfl
      rw [dropWhile_cons_false hb, ← hr, List.reverse_reverse]

theorem splitLinesChars_ne_nil : ∀ l : List Char, splitLinesChars l ≠ [] := by
  intro l
  induction l with
  | nil => simp [splitLinesChars]
  | cons c cs ih =>
    rw [splitLinesChars]
    cases h : splitLinesChars cs with
    | nil => exact absurd h ih
    | cons a as => by_cases hc : c = '\n' <;> simp [hc]

theorem splitLinesChars_cons_newline (rest : List Char) :
    splitLinesChars ('\n' :: rest) = [] :: splitLinesChars rest := by
  rw [splitLinesChars]
  cases h : splitLinesChars rest with
  | nil => exact absurd h (splitLinesChars_ne_nil rest)
  | cons a as => simp

theorem splitLinesChars_cons_other {c : Char} (hc : c ≠ '\n') (rest : List Char) :
    splitLinesChars (c :: rest) =
      (c :: (splitLinesChars rest).headI) :: (splitLinesChars rest).tail := by
  rw [splitLinesChars]
  cases h : splitLinesChars rest with
  | nil => exact absurd h (splitLinesChars_ne_nil rest)
  | cons a as => simp [hc]

theorem splitLinesChars_append_newline :
    ∀ (a rest : List Char), '\n' ∉ a →
      splitLinesChars (a ++ '\n' :: rest) = a :: splitLinesChars rest := by
  intro a
  induction a with
  | nil => intro rest _; exact splitLinesChars_cons_newline rest
  | cons c cs ih =>
    intro rest hmem
    have hc : c ≠ '\n' := fun h => hmem (by rw [h]; exact List.mem_cons_self _ _)
    have hcs : '\n' ∉ cs := fun h => hmem (List.mem_cons_of_mem _ h)
    rw [List.cons_append, splitLinesChars_cons_other hc, ih rest hcs]
    simp

theorem splitLinesChars_no_newline :
    ∀ l : List Char, '\n' ∉ l → splitLinesChars l = [l] := by
  intro l
  induction l with
  | nil => intro _; rfl
  | cons c cs ih =>
    intro hmem
    have hc : c ≠ '\n' := fun h => hmem (by rw [h]; exact List.mem_cons_self _ _)
    have hcs : '\n' ∉ cs := fun h => hmem (List.mem_cons_of_mem _ h)
    rw [splitLinesChars_cons_other hc, ih hcs]
    simp

theorem afterColonChars_cons_colon (rest : List Char) :
    afterColonChars (':' :: rest) = some rest := by
  simp [afterColonChars]

theorem afterColonChars_append :
    ∀ (a rest : List Char), ':' ∉ a →
      afterColonChars (a ++ rest) = afterColonChars rest := by
  intro a
  induction a with
  | nil => intro rest _; rfl
  | cons c cs ih =>
    intro rest hmem
    have hc : c ≠ ':' := fun h => hmem (by rw [h]; exact List.mem_cons_self _ _)
    have hcs : ':' ∉ cs := fun h => hmem (List.mem_cons_of_mem _ h)
    rw [List.cons_append, afterColonChars, if_neg hc, ih rest hcs]

theorem containsSeq_here (sub rest : List Char) (h : sub ≠ []) :
    containsSeq sub (sub ++ rest) = true := by
  cases sub with
  | nil => exact absurd rfl h
  | cons c cs =>
    rw [List.cons_append, containsSeq]
    have hp : (c :: cs).isPrefixOf (c :: (cs ++ rest)) = true := by
      rw [← List.cons_append]
      exact isPrefixOf_append_self _ _
    simp [hp]

theorem containsSeq_cons_of {sub : List Char} (c : Char) (l : List Char)
    (h : containsSeq sub l = true) : containsSeq sub (c :: l) = true := by
  rw [containsSeq, h]
  simp

theorem containsSeq_append_right {sub : List Char} :
    ∀ (pre l : List Char), containsSeq sub l = true →
      containsSeq sub (pre ++ l) = true := by
  intro pre
  induction pre with
  | nil => intro l h; exact h
  | cons c cs ih =>
    intro l h
    rw [List.cons_append]
    exact containsSeq_cons_of c _ (ih l h)

theorem statusOutput_data (code : String) :
    (statusOutput code).data =
      "SERVICE_NAME: WireGuardTunnel$safenet".data ++
        ('\n' :: ("        STATE              : ".data ++
          (code.data ++ "  SOME_STATE".data))) := by
  have h1 : ("SERVICE_NAME: WireGuardTunnel$safenet\n        STATE              : " : String).data
      = "SERVICE_NAME: WireGuardTunnel$safenet".data ++
          ('\n' :: "        STATE              : ".data) := by decide
  show (("SERVICE_NAME: WireGuardTunnel$safenet\n        STATE              : "
          ++ code) ++ "  SOME_STATE").data = _
  rw [String.data_append, String.data_append, h1]
  simp [List.append_assoc]

theorem pyStrip_statusOutput (code : String) :
    pyStrip (statusOutput code) = statusOutput code := by
  rw [pyStrip]
  have hid : stripChars (statusOutput code).data = (statusOutput code).data := by
    apply stripChars_no_ws_ends
    · intro c hc
      rw [statusOutput_data] at hc
      rw [show "SERVICE_NAME: WireGuardTunnel$safenet".data
            = 'S' :: "ERVICE_NAME: WireGuardTunnel$safenet".data from by decide,
          List.cons_append] at hc
      simp only [List.head?_cons, Option.some.injEq] at hc
      rw [← hc]
      decide
    · intro c hc
      have hL : (statusOutput code).data =
          ("SERVICE_NAME: WireGuardTunnel$safenet\n        STATE              : "
            ++ code).data ++ "  SOME_STATE".data := rfl
      rw [hL, List.getLast?_append,
          show ("  SOME_STATE".data).getLast? = some 'E' from by decide] at hc
      simp only [Option.or_some, Option.some.injEq] at hc
      rw [← hc]
      decide
  rw [hid, strMk_data]

theorem statusOutput_ne_empty (code : String) : statusOutput code ≠ "" := by
  intro h0
  have h2 := congrArg String.data h0
  rw [statusOutput_data,
      show ("" : String).data = [] from rfl,
      show "SERVICE_NAME: WireGuardTunnel$safenet".data
        = 'S' :: "ERVICE_NAME: WireGuardTunnel$safenet".data from by decide,
      List.cons_append] at h2
  exact List.cons_ne_nil _ _ h2

theorem parseLineAcc_state_line (code : String) (hne : code ≠ "")
    (hnw : ∀ c ∈ code.data, c.isWhitespace = false) :
    parseLineAcc none
      ("        STATE              : ".data ++ (code.data ++ "  SOME_STATE".data)) =
      some code := by
  obtain ⟨c0, crest, hcode⟩ : ∃ c0 crest, code.data = c0 :: crest := by
    cases hcd : code.data with
    | nil =>
      have : code = "" := by rw [← strMk_data code, hcd]
      exact absurd this hne
    | cons a b => exact ⟨a, b, rfl⟩
  have hcontains : containsSeq "STATE".data
      ("        STATE              : ".data ++ (code.data ++ "  SOME_STATE".data)) = true := by
    rw [show "        STATE              : ".data
          = "        ".data ++ ("STATE".data ++ "              : ".data) from by decide,
        List.append_assoc]
    apply containsSeq_append_right
    rw [List.append_assoc]
    exact containsSeq_here _ _ (by decide)
  have hcolon : afterColonChars
      ("        STATE              : ".data ++ (code.data ++ "  SOME_STATE".data)) =
      some (' ' :: (code.data ++ "  SOME_STATE".data)) := by
    rw [show "        STATE              : ".data
          = "        STATE              ".data ++ (':' :: [' ']) from by decide,
        List.append_assoc,
        afterColonChars_append _ _ (by decide),
        List.cons_append, afterColonChars_cons_colon]
    simp
  have hc0 : c0.isWhitespace = false := hnw c0 (by rw [hcode]; exact List.mem_cons_self _ _)
  have hsi : stripChars (' ' :: (code.data ++ "  SOME_STATE".data))
      = code.data ++ "  SOME_STATE".data := by
    have hdw : List.dropWhile Char.isWhitespace (' ' :: (code.data ++ "  SOME_STATE".data))
        = code.data ++ "  SOME_STATE".data := by
      rw [List.dropWhile_cons]
      rw [if_pos (by decide)]
      rw [hcode, List.cons_append, dropWhile_cons_false hc0, ← List.cons_append, ← hcode]
    rw [stripChars, hdw]
    have hrv : (code.data ++ "  SOME_STATE".data).reverse
        = 'E' :: ("TATS_EMOS  ".data ++ code.data.reverse) := by
      rw [List.reverse_append,
          show ("  SOME_STATE".data).reverse = 'E' :: "TATS_EMOS  ".data from by decide,
          List.cons_append]
    rw [hrv, dropWhile_cons_false (by decide), ← hrv, List.reverse_reverse]
  have hne2 : (code.data ++ "  SOME_STATE".data).isEmpty = false := by
    rw [hcode, List.cons_append]
    rfl
  have hft : firstTokenChars (code.data ++ "  SOME_STATE".data) = code.data := by
    rw [firstTokenChars, List.takeWhile_append_of_pos (by intro a ha; simp [hnw a ha]),
        show ("  SOME_STATE".data).takeWhile (fun c => !c.isWhitespace) = [] from by decide,
        List.append_nil]
  rw [parseLineAcc, hcontains]
  rw [if_pos rfl]
  rw [hcolon]
  simp only [hsi, hne2, hft, Bool.false_eq_true, if_false, strMk_data]

theorem parseState_statusOutput (code : String) (hne : code ≠ "")
    (hnw : ∀ c ∈ code.data, c.isWhitespace = false) :
    parseState (statusOutput code) = some code := by
  have hnl : '\n' ∉ ("        STATE              : ".data ++
      (code.data ++ "  SOME_STATE".data)) := by
    intro hmem
    rcases List.mem_append.mp hmem with h | h
    · exact absurd h (by decide)
    · rcases List.mem_append.mp h with h2 | h2
      · exact absurd (hnw '\n' h2) (by decide)
      · exact absurd h2 (by decide)
  rw [parseState, statusOutput_data,
      splitLinesChars_append_newline _ _ (by decide),
      splitLinesChars_no_newline _ hnl]
  rw [List.foldl_cons, List.foldl_cons, List.foldl_nil,
      show parseLineAcc none "SERVICE_NAME: WireGuardTunnel$safenet".data = none from by decide]
  exact parseLineAcc_state_line code hne hnw

theorem get_tunnel_status_statusOutput (tn code : String) (hne : code ≠ "")
    (hnw : ∀ c ∈ code.data, c.isWhitespace = false) :
    (get_tunnel_status tn ⟨ExecOutcome.ran ⟨0, statusOutput code, ""⟩⟩).result =
      .ok (some [("state", code)]) := by
  simp only [get_tunnel_status]
  rw [pyStrip_statusOutput]
  rw [if_pos ⟨trivial, statusOutput_ne_empty code⟩]
  rw [parseState_statusOutput code hne hnw]

/-- C4 counterexample: on the canonical running-service query output the
code returns the raw numeric token `"4"` — not (a rendering of) the state
`Running` that the claimed mapping assigns to code 4 — and it treats the
unknown code `"9"` in exactly the same raw pass-through way instead of
producing an `Unknown`-tagged value: no code-to-state mapping is applied
anywhere. -/
theorem C4_counterexample_raw_token :
    (get_tunnel_status "safenet"
      ⟨ExecOutcome.ran ⟨0,
        "SERVICE_NAME: WireGuardTunnel$safenet\n        STATE              : 4  RUNNING",
        ""⟩⟩).result = .ok (some [("state", "4")])
    ∧ claimedStateOfCode "4" = TunnelState.Running
    ∧ (get_tunnel_status "safenet"
      ⟨ExecOutcome.ran ⟨0,
        "SERVICE_NAME: WireGuardTunnel$safenet\n        STATE              : 9  MYSTERY",
        ""⟩⟩).result = .ok (some [("state", "9")])
    ∧ claimedStateOfCode "9" = TunnelState.Unknown "9"
    ∧ ("4" : String) ≠ "Running" ∧ ("4" : String) ≠ "RUNNING" :=
  ⟨rfl, by decide, rfl, by decide, by decide, by decide⟩

/-- C4 (amended): for every query output containing a state line, the
status operation extracts the leading token of the (stripped) value after
the first colon and stores it verbatim as the state string — performing no
mapping from numeric codes to named states, so known and unknown codes are
passed through identically — and an empty value after the colon yields the
literal `"UNKNOWN"`. -/
theorem C4_amended_leading_token_verbatim (tn code : String) (hne : code ≠ "")
    (hnw : ∀ c ∈ code.data, c.isWhitespace = false) :
    (get_tunnel_status tn ⟨ExecOutcome.ran ⟨0, statusOutput code, ""⟩⟩).result =
        .ok (some [("state", code)])
    ∧ (get_tunnel_status tn ⟨ExecOutcome.ran
        ⟨0, "SERVICE_NAME: WireGuardTunnel$safenet\n        STATE              : ",
         ""⟩⟩).result = .ok (some [("state", "UNKNOWN")]) :=
  ⟨get_tunnel_status_statusOutput tn code hne hnw, rfl⟩

/-- Witness for the amended C4: the unknown single-digit code `"7"` is
returned verbatim. -/
theorem C4_amended_leading_token_verbatim_witness :
    (get_tunnel_status "safenet" ⟨ExecOutcome.ran ⟨0, statusOutput "7", ""⟩⟩).result =
      .ok (some [("state", "7")]) :=
  (C4_amended_leading_token_verbatim "safenet" "7" (by decide) (by decide)).1
